import Mathlib

/-!
Verification of the firerust realtime-database client (src/lib.rs).

The embedding models the JSON tree value (serde_json::Value), the
JSON-pointer navigation used by the streaming loop (Value::pointer_mut),
the recursive merge function RealtimeReference::merge_value, the
first-frame portion of RealtimeReference::on_snapshot, and the
background streaming loop spawned by on_snapshot.

The connector module (frame parser, transport) is declared in lib.rs
but its source file is not part of the repository snapshot; its
observable outcomes are modelled from the specification where needed
and marked as such.
-/

/-- Tree Value: the recursive JSON-like value (serde_json::Value).
Objects are association lists of string keys to values; serde_json
without the preserve_order feature keeps a map ordered by key, which
the object-level operations below mirror. Numbers are modelled as
integers, which covers every numeric literal the claims mention. -/
inductive Value where
  | null : Value
  | bool (b : Bool) : Value
  | num (n : Int) : Value
  | str (s : String) : Value
  | arr (xs : List Value) : Value
  | obj (entries : List (String × Value)) : Value

/-- Lookup of a key in an object entry list (Map::get): first match. -/
def lookupKey (k : String) : List (String × Value) → Option Value
  | [] => none
  | (k2, v) :: rest => if k2 = k then some v else lookupKey k rest

/-- Replace the value of an existing key, leaving other entries alone
(the effect of writing through Map::get_mut). Keys that are absent are
left untouched. -/
def setKey (k : String) (nv : Value) : List (String × Value) → List (String × Value)
  | [] => []
  | (k2, v) :: rest => if k2 = k then (k2, nv) :: rest else (k2, v) :: setKey k nv rest

/-- Remove a key from an object entry list (Map::remove). -/
def removeKey (k : String) : List (String × Value) → List (String × Value)
  | [] => []
  | (k2, v) :: rest => if k2 = k then rest else (k2, v) :: removeKey k rest

/-- Insert or replace a key at its key-ordered position (the effect of
BTreeMap::entry followed by writing the entry). -/
def insertSorted (k : String) (v : Value) : List (String × Value) → List (String × Value)
  | [] => [(k, v)]
  | (k2, v2) :: rest =>
    if k < k2 then (k, v) :: (k2, v2) :: rest
    else if k = k2 then (k, v) :: rest
    else (k2, v2) :: insertSorted k v rest

/-- Whether a value is null (Value::is_null). -/
def Value.isNull : Value → Bool
  | .null => true
  | _ => false

/-- Whether a value is an object mapping (Value::is_object). -/
def Value.isObj : Value → Bool
  | .obj _ => true
  | _ => false

mutual

/-- RealtimeReference::merge_value from src/lib.rs lines 421-440,
written as a function returning the new contents of the mutable
target `a` (the Rust code mutates `a` in place). The Rust body
matches on `(a.clone(), b.clone())`: in the object/object branch the
pattern binds the clone of the target map, every mutation of the loop
lands on that clone, the clone is dropped, and the original target is
returned unchanged; only the catch-all branch writes `*a = b`. The
model reproduces this exactly: the merged clone is computed (so that
an error from the recursion would propagate, as `?` does) and then
discarded. -/
def merge_value (a b : Value) : Except Unit Value :=
  match a, b with
  | Value.obj ma, Value.obj mb =>
    match mergeEntries ma mb with
    | Except.ok _ => Except.ok (Value.obj ma)
    | Except.error e => Except.error e
  | _, b2 => Except.ok b2
termination_by sizeOf b
decreasing_by all_goals simp_wf

/-- Body of the `for (k, v) in b` loop of merge_value, acting on the
cloned target map: a null value removes the key, any other value is
recursively merged into the current entry (null when absent, as
`entry(k).or_insert(Value::Null)` produces). -/
def mergeEntries (ma mb : List (String × Value)) : Except Unit (List (String × Value)) :=
  match mb with
  | [] => Except.ok ma
  | (k, v) :: rest =>
    if v.isNull then mergeEntries (removeKey k ma) rest
    else
      match merge_value ((lookupKey k ma).getD Value.null) v with
      | Except.ok v2 => mergeEntries (insertSorted k v2 ma) rest
      | Except.error e => Except.error e
termination_by sizeOf mb
decreasing_by all_goals (simp_wf <;> omega)
end

/-- Replacement of every occurrence of "~1" by a slash, left to right
and without overlap, as str::replace does on that pattern. -/
def replaceTilde1 : List Char → List Char
  | [] => []
  | '~' :: '1' :: rest => '/' :: replaceTilde1 rest
  | c :: rest => c :: replaceTilde1 rest

/-- Replacement of every occurrence of "~0" by a tilde, left to right
and without overlap, as str::replace does on that pattern. -/
def replaceTilde0 : List Char → List Char
  | [] => []
  | '~' :: '0' :: rest => '~' :: replaceTilde0 rest
  | c :: rest => c :: replaceTilde0 rest

/-- Unescape one JSON-pointer token the way serde_json does: replace
"~1" by "/" and then "~0" by "~". -/
def unescapeToken (cs : List Char) : String :=
  String.mk (replaceTilde0 (replaceTilde1 cs))

/-- Split a character sequence on slashes, the way str::split yields
the pieces between separators (empty pieces included). -/
def splitSlash : List Char → List (List Char)
  | [] => [[]]
  | '/' :: rest => [] :: splitSlash rest
  | c :: rest =>
    match splitSlash rest with
    | [] => [[c]]
    | g :: gs => (c :: g) :: gs

/-- Tokenise a JSON pointer string the way serde_json Value::pointer_mut
does: the empty pointer denotes the value itself, a pointer not starting
with a slash resolves to nothing, and otherwise the text after the
leading slash is split on slashes and each token unescaped (Rust:
`pointer.split('/').skip(1).map(unescape)`). -/
def pointerTokens (p : String) : Option (List String) :=
  match p.data with
  | [] => some []
  | '/' :: rest => some ((splitSlash rest).map unescapeToken)
  | _ => none

/-- Decimal digit accumulation for usize parsing; a non-digit fails. -/
def digitsToNat : List Char → Nat → Option Nat
  | [], acc => some acc
  | c :: rest, acc =>
    if c.isDigit then digitsToNat rest (acc * 10 + (c.toNat - 48)) else none

/-- Array index parsing used by serde_json pointers (parse_index):
rejects a leading plus sign and leading zeros, otherwise parses a
decimal usize. -/
def parseIndex (s : String) : Option Nat :=
  match s.data with
  | [] => none
  | '+' :: _ => none
  | ['0'] => some 0
  | '0' :: _ :: _ => none
  | cs => digitsToNat cs 0

/-- Navigation part of Value::pointer_mut over unescaped tokens: each
token indexes an object by key or an array by position; any failure,
or a token applied to a scalar, yields none. -/
def pointerGetToks : Value → List String → Option Value
  | v, [] => some v
  | Value.obj m, t :: rest =>
    match lookupKey t m with
    | some v => pointerGetToks v rest
    | none => none
  | Value.arr l, t :: rest =>
    match parseIndex t with
    | some i =>
      match l[i]? with
      | some v => pointerGetToks v rest
      | none => none
    | none => none
  | _, _ :: _ => none

/-- Functional rendering of writing through the mutable reference that
Value::pointer_mut returns: replace the addressed node, keeping the
rest of the tree; none exactly when the pointer does not resolve. -/
def pointerSetToks : Value → List String → Value → Option Value
  | _, [], nv => some nv
  | Value.obj m, t :: rest, nv =>
    match lookupKey t m with
    | some v =>
      match pointerSetToks v rest nv with
      | some v2 => some (Value.obj (setKey t v2 m))
      | none => none
    | none => none
  | Value.arr l, t :: rest, nv =>
    match parseIndex t with
    | some i =>
      match l[i]? with
      | some v =>
        match pointerSetToks v rest nv with
        | some v2 => some (Value.arr (l.set i v2))
        | none => none
      | none => none
    | none => none
  | _, _ :: _, _ => none

/-- Value::pointer resolution for a pointer given as a string. -/
def pointerGetStr (v : Value) (p : String) : Option Value :=
  (pointerTokens p).bind (pointerGetToks v)

/-- Replacement of the subtree addressed by a pointer string: the
combination of Value::pointer_mut and assignment used by the Put arm
of the streaming loop. -/
def pointerSetStr (v : Value) (p : String) (nv : Value) : Option Value :=
  (pointerTokens p).bind (fun toks => pointerSetToks v toks nv)

/-- Event kinds of the change stream (connector::EventType, as listed
by the match arms of the streaming loop in src/lib.rs). -/
inductive EventType where
  | put : EventType
  | patch : EventType
  | keepAlive : EventType
  | cancel : EventType
  | authRevoked : EventType

/-- One raw block accumulated by the inner read loop of on_snapshot,
abstracted by the outcome of the three decoding stages that lib.rs
runs on it. Modelled from the spec: the connector module holding
EventStream::try_from is not in the repository snapshot, so a block is
represented by whether String::from_utf8 fails, whether
EventStream::try_from fails, whether serde_json::from_str on the data
text fails, or, when all three succeed, the event kind together with
the decoded JSON payload. -/
inductive RawBlock where
  | invalidUtf8 : RawBlock
  | malformedFrame : RawBlock
  | badJson (ev : EventType) : RawBlock
  | frame (ev : EventType) (payload : Value) : RawBlock

/-- Whether a raw block fails one of the decoding stages (non-UTF8
text, ill-formed frame, or undecodable JSON payload). -/
def RawBlock.isMalformed : RawBlock → Bool
  | .invalidUtf8 => true
  | .malformedFrame => true
  | .badJson _ => true
  | .frame _ _ => false

/-- Extraction of the frame path in the streaming loop:
`data["path"].as_str()` (null for a missing key or a non-object, and
as_str succeeds only on a string), then the normalisation mapping the
path "/" to the empty pointer. -/
def getPath (payload : Value) : Option String :=
  match payload with
  | Value.obj m =>
    match lookupKey "path" m with
    | some (Value.str s) => some (if s = "/" then "" else s)
    | _ => none
  | _ => none

/-- Extraction of the frame value in the streaming loop:
`data.get("data")`, which is some only on an object holding the key. -/
def getData (payload : Value) : Option Value :=
  match payload with
  | Value.obj m => lookupKey "data" m
  | _ => none

/-- Observable outcome of running the streaming loop over a finite
prefix of raw blocks: the final snapshot, the arguments of the
callback invocations in order, and how many blocks were read. -/
structure RunResult (T : Type) where
  snap : Value
  calls : List T
  reads : Nat

/-- Bump the read counter of a run result by one, to account for the
block consumed by the current loop iteration. -/
def afterRead {T : Type} (r : RunResult T) : RunResult T :=
  ⟨r.snap, r.calls, r.reads + 1⟩

/-- Streaming loop of on_snapshot (src/lib.rs lines 320-417) over a
finite prefix of raw blocks, parameterised by the typed-view
deserialisation `serde_json::from_value::<T>` as a partial function
from snapshots to T. Each iteration consumes one block; decoding
failures, a missing or non-string path, a missing data key, an
unresolvable pointer, a failed deserialisation and a keep-alive all
skip to the next block (`continue`). A Put replaces the subtree at
the pointer, a Patch runs merge_value on it; when the subsequent
deserialisation succeeds the callback is invoked with the typed view
(its own result is discarded by the loop). Cancel and AuthRevoked
return, reading nothing further — but these arms sit after the path
and data extraction, so they are only reached by frames whose payload
carries both keys. The empty list models the transport yielding
nothing further to observe. -/
def runLoop {T : Type} (deser : Value → Option T) : Value → List RawBlock → RunResult T
  | snap, [] => ⟨snap, [], 0⟩
  | snap, RawBlock.invalidUtf8 :: rest => afterRead (runLoop deser snap rest)
  | snap, RawBlock.malformedFrame :: rest => afterRead (runLoop deser snap rest)
  | snap, RawBlock.badJson _ :: rest => afterRead (runLoop deser snap rest)
  | snap, RawBlock.frame ev payload :: rest =>
    match getPath payload with
    | none => afterRead (runLoop deser snap rest)
    | some path =>
      match getData payload with
      | none => afterRead (runLoop deser snap rest)
      | some value =>
        match ev with
        | EventType.keepAlive => afterRead (runLoop deser snap rest)
        | EventType.cancel => ⟨snap, [], 1⟩
        | EventType.authRevoked => ⟨snap, [], 1⟩
        | EventType.put =>
          match pointerSetStr snap path value with
          | none => afterRead (runLoop deser snap rest)
          | some snap2 =>
            match deser snap2 with
            | none => afterRead (runLoop deser snap2 rest)
            | some t =>
              let r := runLoop deser snap2 rest
              ⟨r.snap, t :: r.calls, r.reads + 1⟩
        | EventType.patch =>
          match pointerGetStr snap path with
          | none => afterRead (runLoop deser snap rest)
          | some node =>
            match merge_value node value with
            | Except.error _ => afterRead (runLoop deser snap rest)
            | Except.ok node2 =>
              match pointerSetStr snap path node2 with
              | none => afterRead (runLoop deser snap rest)
              | some snap2 =>
                match deser snap2 with
                | none => afterRead (runLoop deser snap2 rest)
                | some t =>
                  let r := runLoop deser snap2 rest
                  ⟨r.snap, t :: r.calls, r.reads + 1⟩

/-- First-frame portion of on_snapshot (src/lib.rs lines 296-320),
before the background thread is spawned. Inputs: the response status
code, the outcome of `serde_json::from_str` on the initial frame data
(none when parsing fails), the typed-view deserialisation, and the
consumer callback. The first component is ok with the seeded snapshot
exactly when on_snapshot reaches the thread spawn (the background
execution unit starts), and error when on_snapshot returns early; the
second component lists the callback invocations that occurred. -/
def on_snapshot_first {T : Type} (status : Nat) (body : Option Value)
    (deser : Value → Option T) (cb : T → Except Unit Unit) :
    Except Unit Value × List T :=
  if status ≠ 200 then (Except.error (), [])
  else
    match body with
    | none => (Except.error (), [])
    | some data =>
      match getData data with
      | none => (Except.error (), [])
      | some snap =>
        match deser snap with
        | none => (Except.error (), [])
        | some t =>
          match cb t with
          | Except.error _ => (Except.error (), [t])
          | Except.ok _ => (Except.ok snap, [t])

/-- Identity typed view: the consumer asks for serde_json::Value
itself, where deserialisation always succeeds. -/
def deserId : Value → Option Value := fun v => some v

/-- Snapshot seed of the merge scenario: the mapping holding a at 1
and b at the mapping holding x at 1. -/
def c1_seed : Value :=
  Value.obj [("a", Value.num 1), ("b", Value.obj [("x", Value.num 1)])]

/-- Patch value of the merge scenario: the mapping holding b at the
mapping with x null and y at 2. -/
def c1_patch : Value :=
  Value.obj [("b", Value.obj [("x", Value.null), ("y", Value.num 2)])]

/-- Expected result of the merge scenario per the spec: x tombstoned
away, y inserted. -/
def c1_expected : Value :=
  Value.obj [("a", Value.num 1), ("b", Value.obj [("y", Value.num 2)])]

/-- Put frame of the creation scenario: path /posts/k1 with the value
mapping msg to the string hi. -/
def c3_block : RawBlock :=
  RawBlock.frame EventType.put
    (Value.obj [("data", Value.obj [("msg", Value.str "hi")]), ("path", Value.str "/posts/k1")])

/-- Expected snapshot of the creation scenario per the spec. -/
def c3_expected : Value :=
  Value.obj [("posts", Value.obj [("k1", Value.obj [("msg", Value.str "hi")])])]

/-- A root-level Put frame carrying the given value. -/
def putBlock (v : Value) : RawBlock :=
  RawBlock.frame EventType.put (Value.obj [("data", v), ("path", Value.str "/")])

/-- A Cancel frame with the payload null, the shape the wire format of
the spec gives control frames (no structured path/data payload). -/
def cancelNullBlock : RawBlock :=
  RawBlock.frame EventType.cancel Value.null

/-- Block sequence of the termination scenario: two Put frames, a
Cancel frame, and a further Put frame that a terminating loop would
never read. -/
def c2_blocks : List RawBlock :=
  [putBlock (Value.num 1), putBlock (Value.num 2), cancelNullBlock, putBlock (Value.num 3)]

/-- Helper: on any pair where at least one side is not a mapping,
merge_value takes the catch-all branch and returns b. -/
theorem merge_value_nonobj (a b : Value) (h : a.isObj = false ∨ b.isObj = false) :
    merge_value a b = Except.ok b := by
  cases a <;> cases b <;> simp_all [merge_value, Value.isObj]

/-- Helper: merge_value and mergeEntries never produce an error, by
strong induction on the size of the right-hand value. -/
theorem merge_ok_strong :
    ∀ n : Nat,
      (∀ b a : Value, sizeOf b ≤ n → ∃ r, merge_value a b = Except.ok r) ∧
      (∀ mb ma : List (String × Value), sizeOf mb ≤ n → ∃ r, mergeEntries ma mb = Except.ok r) := by
  intro n
  induction n using Nat.strong_induction_on with
  | _ n ih =>
    constructor
    · intro b a hb
      cases b with
      | obj mb =>
        cases a with
        | obj ma =>
          have hmb : sizeOf mb < n := by
            simp only [Value.obj.sizeOf_spec] at hb
            omega
          obtain ⟨r, hr⟩ := (ih (sizeOf mb) hmb).2 mb ma le_rfl
          exact ⟨Value.obj ma, by simp [merge_value, hr]⟩
        | null => exact ⟨Value.obj mb, by simp [merge_value]⟩
        | bool c => exact ⟨Value.obj mb, by simp [merge_value]⟩
        | num c => exact ⟨Value.obj mb, by simp [merge_value]⟩
        | str c => exact ⟨Value.obj mb, by simp [merge_value]⟩
        | arr c => exact ⟨Value.obj mb, by simp [merge_value]⟩
      | null => exact ⟨_, merge_value_nonobj a Value.null (Or.inr rfl)⟩
      | bool c => exact ⟨_, merge_value_nonobj a (Value.bool c) (Or.inr rfl)⟩
      | num c => exact ⟨_, merge_value_nonobj a (Value.num c) (Or.inr rfl)⟩
      | str c => exact ⟨_, merge_value_nonobj a (Value.str c) (Or.inr rfl)⟩
      | arr c => exact ⟨_, merge_value_nonobj a (Value.arr c) (Or.inr rfl)⟩
    · intro mb ma hmb
      cases mb with
      | nil => exact ⟨ma, by simp [mergeEntries]⟩
      | cons hd rest =>
        obtain ⟨k, v⟩ := hd
        have hsz : sizeOf rest < n ∧ sizeOf v < n := by
          simp only [List.cons.sizeOf_spec, Prod.mk.sizeOf_spec] at hmb
          omega
        by_cases hnull : v.isNull = true
        · obtain ⟨r, hr⟩ := (ih (sizeOf rest) hsz.1).2 rest (removeKey k ma) le_rfl
          exact ⟨r, by simp [mergeEntries, hnull, hr]⟩
        · obtain ⟨v2, hv2⟩ :=
            (ih (sizeOf v) hsz.2).1 v ((lookupKey k ma).getD Value.null) le_rfl
          obtain ⟨r, hr⟩ := (ih (sizeOf rest) hsz.1).2 rest (insertSorted k v2 ma) le_rfl
          exact ⟨r, by simp [mergeEntries, hnull, hv2, hr]⟩

/-- C9: merge_value never returns an error: for every pair of input
Tree Values it returns Ok, so its error branch is unreachable and the
error-handling arm of the Patch dispatch in on_snapshot can never
fire. -/
theorem merge_value_never_errors (a b : Value) : ∃ r, merge_value a b = Except.ok r :=
  (merge_ok_strong (sizeOf b)).1 b a le_rfl

/-- C7: when at least one of the two Tree Values is not a mapping,
merge_value leaves the target equal to b (the catch-all branch of the
match performs a full replace). -/
theorem merge_value_non_mapping_replaces (a b : Value)
    (h : a.isObj = false ∨ b.isObj = false) :
    merge_value a b = Except.ok b :=
  merge_value_nonobj a b h

/-- Witness for C7 at a concrete input: the target holds the number 1
(not a mapping), b is the empty mapping, and the merge replaces the
target with b. -/
theorem merge_value_non_mapping_replaces_witness :
    merge_value (Value.num 1) (Value.obj []) = Except.ok (Value.obj []) :=
  merge_value_non_mapping_replaces (Value.num 1) (Value.obj []) (Or.inl rfl)

/-- C1 (failing input): the code contradicts the claimed merge
semantics. On the seed mapping (a at 1, b at the mapping with x at 1)
and the patch value (b at the mapping with x null and y at 2),
merge_value returns the seed unchanged, because the object/object
branch mutates a clone of the target and discards it; the spec
expects x removed and y inserted. The last two conjuncts exhibit the
difference: the key x below b is still present in the code result and
absent from the expected value. -/
theorem merge_value_scenario_noop :
    merge_value c1_seed c1_patch = Except.ok c1_seed ∧
    pointerGetToks c1_seed ["b", "x"] = some (Value.num 1) ∧
    pointerGetToks c1_expected ["b", "x"] = none := by
  refine ⟨?_, rfl, rfl⟩
  simp [merge_value, mergeEntries, c1_seed, c1_patch, lookupKey, removeKey,
    insertSorted, Value.isNull]

/-- C2 (failing input): a Cancel frame carrying the control-frame
payload null does not terminate the streaming loop, because the path
and data extraction precede the event dispatch and a null payload has
neither key, so the loop hits the missing-path guard and continues.
After two root Put frames, the Cancel frame, and a third Put frame,
the loop has read all four blocks and invoked the callback three
times, where the claim requires exactly two invocations and no read
beyond the Cancel frame. -/
theorem cancel_frame_not_terminating :
    (runLoop deserId (Value.obj []) c2_blocks).calls =
      [Value.num 1, Value.num 2, Value.num 3] ∧
    (runLoop deserId (Value.obj []) c2_blocks).reads = 4 :=
  ⟨rfl, rfl⟩

/-- C3 (counterexample): seeding the Snapshot with the empty mapping
and applying the Put frame at pointer /posts/k1 leaves the snapshot
equal to the empty mapping, which differs from the claimed expected
snapshot (a mapping holding the key posts): pointer_mut does not
create missing intermediate mappings, so the pointer fails to resolve
and the frame is skipped. -/
theorem put_create_missing_counterexample :
    (runLoop deserId (Value.obj []) [c3_block]).snap = Value.obj [] ∧
    Value.obj ([] : List (String × Value)) ≠ c3_expected := by
  refine ⟨rfl, ?_⟩
  intro h
  simp [c3_expected] at h

/-- C3 (amended): seeding the Snapshot with the empty mapping and
applying the Put frame at pointer /posts/k1 is a no-op: the pointer
does not resolve, the snapshot stays the empty mapping, no callback
is invoked, and the frame is consumed. -/
theorem put_missing_path_noop :
    runLoop deserId (Value.obj []) [c3_block] = ⟨Value.obj [], [], 1⟩ :=
  rfl

/-- C6: a mid-stream raw block that fails one of the decoding stages
(non-UTF8 text, ill-formed frame, undecodable JSON payload) leaves
the snapshot untouched, produces no callback invocation, and the loop
continues with the remaining blocks. -/
theorem malformed_block_skipped {T : Type} (deser : Value → Option T) (snap : Value)
    (b : RawBlock) (rest : List RawBlock) (h : b.isMalformed = true) :
    runLoop deser snap (b :: rest) = afterRead (runLoop deser snap rest) := by
  cases b with
  | invalidUtf8 => simp [runLoop]
  | malformedFrame => simp [runLoop]
  | badJson ev => simp [runLoop]
  | frame ev payload => simp [RawBlock.isMalformed] at h

/-- Witness for C6: an invalid-UTF8 block between the seed state and a
valid Put frame is skipped, leaving the valid frame to be processed. -/
theorem malformed_block_skipped_witness :
    runLoop deserId (Value.obj []) (RawBlock.invalidUtf8 :: [putBlock (Value.num 1)]) =
      afterRead (runLoop deserId (Value.obj []) [putBlock (Value.num 1)]) :=
  malformed_block_skipped deserId (Value.obj []) RawBlock.invalidUtf8
    [putBlock (Value.num 1)] rfl

/-- Helper: when pointer navigation fails, writing through the pointer
fails on the same tokens. -/
theorem pointerSetToks_none_of_get_none :
    ∀ (toks : List String) (v nv : Value),
      pointerGetToks v toks = none → pointerSetToks v toks nv = none := by
  intro toks
  induction toks with
  | nil => intro v nv h; simp [pointerGetToks] at h
  | cons t rest ih =>
    intro v nv h
    cases v with
    | null => simp [pointerSetToks]
    | bool c => simp [pointerSetToks]
    | num c => simp [pointerSetToks]
    | str c => simp [pointerSetToks]
    | obj m =>
      simp only [pointerGetToks] at h
      simp only [pointerSetToks]
      cases hl : lookupKey t m with
      | none => simp [hl]
      | some u =>
        simp only [hl] at h
        simp only [hl]
        simp [ih u nv h]
    | arr l =>
      simp only [pointerGetToks] at h
      simp only [pointerSetToks]
      cases hi : parseIndex t with
      | none => simp [hi]
      | some i =>
        simp only [hi] at h
        simp only [hi]
        cases hg : l[i]? with
        | none => simp [hg]
        | some u =>
          simp only [hg] at h
          simp only [hg]
          simp [ih u nv h]

/-- C5: a Put or Patch frame whose pointer does not resolve in the
current snapshot leaves the snapshot unchanged, invokes no callback,
and the loop goes on to process the remaining blocks. -/
theorem path_not_found_noop {T : Type} (deser : Value → Option T) (snap : Value)
    (ev : EventType) (payload : Value) (path : String) (value : Value)
    (rest : List RawBlock)
    (hev : ev = EventType.put ∨ ev = EventType.patch)
    (hp : getPath payload = some path)
    (hd : getData payload = some value)
    (hnr : pointerGetStr snap path = none) :
    runLoop deser snap (RawBlock.frame ev payload :: rest) =
      afterRead (runLoop deser snap rest) := by
  have hset : ∀ nv : Value, pointerSetStr snap path nv = none := by
    intro nv
    have hnr2 : (pointerTokens path).bind (pointerGetToks snap) = none := hnr
    unfold pointerSetStr
    cases ht : pointerTokens path with
    | none => simp
    | some toks =>
      simp only [ht, Option.some_bind] at hnr2 ⊢
      exact pointerSetToks_none_of_get_none toks snap nv hnr2
  cases hev with
  | inl h => subst h; simp [runLoop, hp, hd, hset]
  | inr h => subst h; simp [runLoop, hp, hd, hnr]

/-- Witness for C5: a Put frame at the absent path /missing on the
empty-mapping snapshot is skipped and the loop moves on. -/
theorem path_not_found_noop_witness :
    runLoop deserId (Value.obj [])
        (RawBlock.frame EventType.put
          (Value.obj [("data", Value.num 1), ("path", Value.str "/missing")]) :: []) =
      afterRead (runLoop deserId (Value.obj []) []) :=
  path_not_found_noop deserId (Value.obj []) EventType.put
    (Value.obj [("data", Value.num 1), ("path", Value.str "/missing")])
    "/missing" (Value.num 1) [] (Or.inl rfl) rfl rfl rfl

/-- Typed view that always fails to deserialise, for exercising the
TypeMismatch skip. -/
def deserNone : Value → Option Value := fun _ => none

/-- C10: when the pointer of a Put or Patch frame resolves, the
mutation of the snapshot survives a failing deserialisation into the
typed view: the loop continues on the mutated snapshot and the
callback is suppressed for that frame, with no rollback. First
conjunct: Put frames; second conjunct: Patch frames. -/
theorem mutation_retained_on_type_mismatch {T : Type} :
    (∀ (deser : Value → Option T) (snap payload : Value) (path : String)
       (value : Value) (rest : List RawBlock) (snap2 : Value),
       getPath payload = some path → getData payload = some value →
       pointerSetStr snap path value = some snap2 → deser snap2 = none →
       runLoop deser snap (RawBlock.frame EventType.put payload :: rest) =
         afterRead (runLoop deser snap2 rest)) ∧
    (∀ (deser : Value → Option T) (snap payload : Value) (path : String)
       (value node node2 snap2 : Value) (rest : List RawBlock),
       getPath payload = some path → getData payload = some value →
       pointerGetStr snap path = some node →
       merge_value node value = Except.ok node2 →
       pointerSetStr snap path node2 = some snap2 →
       deser snap2 = none →
       runLoop deser snap (RawBlock.frame EventType.patch payload :: rest) =
         afterRead (runLoop deser snap2 rest)) := by
  constructor
  · intro deser snap payload path value rest snap2 hp hd hset hdeser
    simp [runLoop, hp, hd, hset, hdeser]
  · intro deser snap payload path value node node2 snap2 rest hp hd hget hmerge hset hdeser
    simp [runLoop, hp, hd, hget, hmerge, hset, hdeser]

/-- Witness for C10 at a concrete input: a root Put frame carrying the
number 2 mutates the snapshot from the number 1 to the number 2; the
typed view fails to deserialise, the callback is skipped, and the
loop continues on the mutated snapshot. -/
theorem mutation_retained_on_type_mismatch_witness :
    runLoop deserNone (Value.num 1) (putBlock (Value.num 2) :: []) =
      afterRead (runLoop deserNone (Value.num 2) []) :=
  mutation_retained_on_type_mismatch.1 deserNone (Value.num 1)
    (Value.obj [("data", Value.num 2), ("path", Value.str "/")]) ""
    (Value.num 2) [] (Value.num 2) rfl rfl rfl rfl

/-- Helper: looking a key up after setting it finds the new value,
provided the key was present. -/
theorem lookupKey_setKey (k : String) (x : Value) (m : List (String × Value)) (u : Value)
    (h : lookupKey k m = some u) : lookupKey k (setKey k x m) = some x := by
  induction m with
  | nil => simp [lookupKey] at h
  | cons hd rest ih =>
    obtain ⟨k2, v⟩ := hd
    by_cases hk : k2 = k
    · subst hk; simp [lookupKey, setKey]
    · simp only [lookupKey, setKey, hk, if_false] at h ⊢
      exact ih h

/-- Helper: setting the same key to the same value twice equals
setting it once. -/
theorem setKey_setKey (k : String) (x : Value) (m : List (String × Value)) :
    setKey k x (setKey k x m) = setKey k x m := by
  induction m with
  | nil => simp [setKey]
  | cons hd rest ih =>
    obtain ⟨k2, v⟩ := hd
    by_cases hk : k2 = k
    · subst hk; simp [setKey]
    · simp [setKey, hk, ih]

/-- Helper: writing the same value through the same resolving token
path twice produces the tree obtained by writing it once. -/
theorem pointerSetToks_idem :
    ∀ (toks : List String) (s v s2 : Value),
      pointerSetToks s toks v = some s2 → pointerSetToks s2 toks v = some s2 := by
  intro toks
  induction toks with
  | nil =>
    intro s v s2 h
    simp [pointerSetToks] at h ⊢
    exact h
  | cons t rest ih =>
    intro s v s2 h
    cases s with
    | null => simp [pointerSetToks] at h
    | bool c => simp [pointerSetToks] at h
    | num c => simp [pointerSetToks] at h
    | str c => simp [pointerSetToks] at h
    | obj m =>
      simp only [pointerSetToks] at h
      cases hl : lookupKey t m with
      | none => simp [hl] at h
      | some u =>
        simp only [hl] at h
        cases hrec : pointerSetToks u rest v with
        | none => simp [hrec] at h
        | some u2 =>
          simp only [hrec, Option.some.injEq] at h
          subst h
          simp only [pointerSetToks]
          simp only [lookupKey_setKey t u2 m u hl]
          simp only [ih u v u2 hrec]
          simp [setKey_setKey]
    | arr l =>
      simp only [pointerSetToks] at h
      cases hi : parseIndex t with
      | none => simp [hi] at h
      | some i =>
        simp only [hi] at h
        cases hg : l[i]? with
        | none => simp [hg] at h
        | some u =>
          simp only [hg] at h
          cases hrec : pointerSetToks u rest v with
          | none => simp [hrec] at h
          | some u2 =>
            simp only [hrec, Option.some.injEq] at h
            subst h
            simp only [pointerSetToks, hi]
            have hlen : i < l.length := by
              by_contra hge
              rw [List.getElem?_eq_none (Nat.le_of_not_lt hge)] at hg
              exact Option.noConfusion hg
            simp only [List.getElem?_set_eq_of_lt u2 hlen]
            simp only [ih u v u2 hrec]
            simp [List.set_set]

/-- C8: replace-subtree is idempotent: if writing value v at pointer p
into snapshot s succeeds and produces s2, then writing v at p into s2
succeeds and produces s2 again (the second application changes
nothing). -/
theorem replace_subtree_idempotent (s : Value) (p : String) (v s2 : Value)
    (h : pointerSetStr s p v = some s2) : pointerSetStr s2 p v = some s2 := by
  unfold pointerSetStr at h ⊢
  cases ht : pointerTokens p with
  | none => simp [ht] at h
  | some toks =>
    simp only [ht, Option.some_bind] at h ⊢
    exact pointerSetToks_idem toks s v s2 h

/-- Witness for C8 at a concrete input: replacing the subtree at /a of
the mapping holding a at 1 with the number 2 yields the mapping
holding a at 2, and replacing again yields the same snapshot. -/
theorem replace_subtree_idempotent_witness :
    pointerSetStr (Value.obj [("a", Value.num 2)]) "/a" (Value.num 2) =
      some (Value.obj [("a", Value.num 2)]) :=
  replace_subtree_idempotent (Value.obj [("a", Value.num 1)]) "/a" (Value.num 2)
    (Value.obj [("a", Value.num 2)]) rfl

/-- C4: behaviour of the synchronous first-frame step of on_snapshot.
The step consumes the single initial frame of the opened stream.
First conjunct: when the status is 200, the frame text parses, the
payload carries a data key, the typed deserialisation succeeds and
the callback accepts, the operation succeeds with the snapshot seeded
from the data key and exactly one callback invocation, and only then
does the background execution unit start. The remaining conjuncts:
a non-200 status, an unparseable frame, a payload without a usable
data key, a failing deserialisation, or a failing callback each make
on_snapshot return an error, so no background execution unit starts. -/
theorem on_snapshot_first_behaviour {T : Type} :
    (∀ (data snap : Value) (deser : Value → Option T) (cb : T → Except Unit Unit) (t : T),
       getData data = some snap → deser snap = some t → cb t = Except.ok () →
       on_snapshot_first 200 (some data) deser cb = (Except.ok snap, [t])) ∧
    (∀ (status : Nat) (body : Option Value) (deser : Value → Option T)
       (cb : T → Except Unit Unit), status ≠ 200 →
       on_snapshot_first status body deser cb = (Except.error (), [])) ∧
    (∀ (deser : Value → Option T) (cb : T → Except Unit Unit),
       on_snapshot_first 200 none deser cb = (Except.error (), [])) ∧
    (∀ (data : Value) (deser : Value → Option T) (cb : T → Except Unit Unit),
       getData data = none →
       on_snapshot_first 200 (some data) deser cb = (Except.error (), [])) ∧
    (∀ (data snap : Value) (deser : Value → Option T) (cb : T → Except Unit Unit),
       getData data = some snap → deser snap = none →
       on_snapshot_first 200 (some data) deser cb = (Except.error (), [])) ∧
    (∀ (data snap : Value) (deser : Value → Option T) (cb : T → Except Unit Unit)
       (t : T) (e : Unit),
       getData data = some snap → deser snap = some t → cb t = Except.error e →
       on_snapshot_first 200 (some data) deser cb = (Except.error (), [t])) := by
  refine ⟨?_, ?_, ?_, ?_, ?_, ?_⟩
  · intro data snap deser cb t hd hdes hcb
    simp [on_snapshot_first, hd, hdes, hcb]
  · intro status body deser cb hs
    simp [on_snapshot_first, hs]
  · intro deser cb
    simp [on_snapshot_first]
  · intro data deser cb hd
    simp [on_snapshot_first, hd]
  · intro data snap deser cb hd hdes
    simp [on_snapshot_first, hd, hdes]
  · intro data snap deser cb t e hd hdes hcb
    simp [on_snapshot_first, hd, hdes, hcb]

/-- Witness for C4 at a concrete input: a successful first frame whose
payload carries the data key with the number 5, with the identity
typed view and an accepting callback, seeds the snapshot with 5 and
invokes the callback once. -/
theorem on_snapshot_first_behaviour_witness :
    on_snapshot_first 200 (some (Value.obj [("data", Value.num 5), ("path", Value.str "/")]))
        deserId (fun _ => Except.ok ()) =
      (Except.ok (Value.num 5), [Value.num 5]) :=
  on_snapshot_first_behaviour.1 (Value.obj [("data", Value.num 5), ("path", Value.str "/")])
    (Value.num 5) deserId (fun _ => Except.ok ()) (Value.num 5) rfl rfl rfl
